import Mathlib

/-!
A shallow embedding of the OratioViva backend core (files `backend/jobs.py`,
`backend/cleanup.py`, `backend/tts.py`, `backend/main.py`) and proofs about it.

Conventions of the embedding:
* Python `datetime` timestamps are modelled as `Int` (an absolute time value);
  `datetime.now()` becomes an explicit `now : Int` argument at every call that
  reads the clock.
* Python floats are modelled as `ℚ`.
* Python `None` becomes `Option.none`; Python string truthiness (`if s:`) is
  modelled explicitly (`optTruthy`).
* The filesystem seen by the cleanup sweep is an explicit list of files; the
  environment of importable packages probed by `_local_support` is a record
  of booleans, one per optional dependency; the model-manager collaborator is a record of its
  observable answers.  The concrete synthesis backends (`_synthesize_local`,
  `_synthesize_inference`) are external collaborators: their outcome is an
  oracle argument `backendRun : String → Except String ℚ` giving, for the
  dispatched provider, either the duration of the produced audio or the raised
  error message.  The stub generator `_generate_stub_audio` is modelled by the
  duration it returns (its tone waveform is not observed by any claim).
* French error-message strings from the source are reproduced with
  apostrophes replaced by spaces.
-/

namespace OratioViva

/-! ### Character-level string helpers (Python `lower`, `in`, `strip`, slicing) -/

/-- `s.lower()`. -/
def strLower (s : String) : String := ⟨s.data.map Char.toLower⟩

/-- Does the list start with the given pattern (second argument)? -/
def charsStartsWith : List Char → List Char → Bool
  | _, [] => true
  | [], _ :: _ => false
  | a :: as, b :: bs => (a == b) && charsStartsWith as bs

/-- Does the list contain the pattern as a contiguous run? -/
def charsContains : List Char → List Char → Bool
  | [], pat => pat.isEmpty
  | a :: as, pat => charsStartsWith (a :: as) pat || charsContains as pat

/-- Python `sub in s` (contiguous substring test). -/
def strContains (s sub : String) : Bool := charsContains s.data sub.data

/-- Python `s.strip()`. -/
def strStrip (s : String) : String :=
  ⟨((s.data.dropWhile Char.isWhitespace).reverse.dropWhile Char.isWhitespace).reverse⟩

/-- Python `s[:n]`. -/
def strTake (s : String) (n : Nat) : String := ⟨s.data.take n⟩

/-- Python `s.replace("/", "_")` (the only replacement the source performs). -/
def strReplaceSlash (s : String) : String :=
  ⟨s.data.map (fun c => if c == '/' then '_' else c)⟩

/-- Python truthiness of an optional string (`if s:`): false for `None` and `""`. -/
def optTruthy : Option String → Bool
  | none => false
  | some s => !s.data.isEmpty

/-- Python `not s or not s.strip()` on an optional string. -/
def blankOpt : Option String → Bool
  | none => true
  | some s => s.data.isEmpty || (strStrip s).data.isEmpty

instance {α β : Type} [DecidableEq α] [DecidableEq β] : DecidableEq (Except α β) := fun a b =>
  match a, b with
  | .ok x, .ok y =>
    match decEq x y with
    | .isTrue h => .isTrue (h ▸ rfl)
    | .isFalse h => .isFalse (fun hc => h (Except.ok.inj hc))
  | .error x, .error y =>
    match decEq x y with
    | .isTrue h => .isTrue (h ▸ rfl)
    | .isFalse h => .isFalse (fun hc => h (Except.error.inj hc))
  | .ok _, .error _ => .isFalse (fun hc => Except.noConfusion hc)
  | .error _, .ok _ => .isFalse (fun hc => Except.noConfusion hc)

/-! ### Job Store (`backend/jobs.py`)

`JobStatus` is the dataclass of `jobs.py`; the in-memory dict `JobStore._jobs`
is modelled as a list of records in insertion order (Python dicts preserve
insertion order; assigning to an existing key keeps its position), and the
JSON document written by `_save` is the `saved` field.  `path is None` is the
`has_path` flag.  The per-store lock serialises every operation, so the store
is modelled sequentially. -/

structure JobStatus where
  job_id : String
  status : String
  created_at : Int
  updated_at : Int
  audio_url : Option String := none
  duration_seconds : Option ℚ := none
  model : Option String := none
  voice_id : Option String := none
  source : Option String := none
  error : Option String := none
deriving DecidableEq, Repr

/-- The keyword arguments of `JobStore.update`: for each mutable attribute,
`some v` means the attribute is named in `fields` with value `v`.
(`job_id` cannot appear: it is a positional parameter of `update`, and
`updated_at` is recomputed after `data.update(fields)` regardless.) -/
structure JobFields where
  status : Option String := none
  created_at : Option Int := none
  audio_url : Option (Option String) := none
  duration_seconds : Option (Option ℚ) := none
  model : Option (Option String) := none
  voice_id : Option (Option String) := none
  source : Option (Option String) := none
  error : Option (Option String) := none
deriving DecidableEq, Repr

/-- `data = job.__dict__.copy(); data.update(fields); data["updated_at"] = now;
JobStatus(**data)`. -/
def applyFields (j : JobStatus) (f : JobFields) (now : Int) : JobStatus :=
  { job_id := j.job_id
    status := f.status.getD j.status
    created_at := f.created_at.getD j.created_at
    updated_at := now
    audio_url := f.audio_url.getD j.audio_url
    duration_seconds := f.duration_seconds.getD j.duration_seconds
    model := f.model.getD j.model
    voice_id := f.voice_id.getD j.voice_id
    source := f.source.getD j.source
    error := f.error.getD j.error }

structure JobStore where
  jobs : List JobStatus := []
  saved : List JobStatus := []
  has_path : Bool := true
  max_items : Nat := 200
deriving DecidableEq, Repr

/-- Python `self._jobs.get(job_id)`. -/
def dictGet (jobs : List JobStatus) (id : String) : Option JobStatus :=
  jobs.find? (fun j => j.job_id == id)

/-- Python `self._jobs[job_id] = job` (replace in place, else append). -/
def dictSet (jobs : List JobStatus) (id : String) (j : JobStatus) : List JobStatus :=
  if (jobs.find? (fun x => x.job_id == id)).isSome then
    jobs.map (fun x => if x.job_id == id then j else x)
  else jobs ++ [j]

/-- Python `self._jobs.pop(job_id, None)`. -/
def dictRemove (jobs : List JobStatus) (id : String) : List JobStatus :=
  jobs.filter (fun j => j.job_id != id)

/-- Stable insertion for a descending sort by `updated_at`: the new element is
placed before the first stored element whose key is ≤ its own, so that equal
keys keep their original relative order, exactly as Python's stable
`sorted(key=..., reverse=True)`. -/
def insertByUpdated (j : JobStatus) : List JobStatus → List JobStatus
  | [] => [j]
  | x :: xs => if x.updated_at ≤ j.updated_at then j :: x :: xs else x :: insertByUpdated j xs

/-- `sorted(self._jobs.values(), key=lambda j: j.updated_at, reverse=True)`. -/
def sortByUpdatedDesc (l : List JobStatus) : List JobStatus := l.foldr insertByUpdated []

/-- `JobStore._save`: rewrite the persisted document from the in-memory dict,
keeping only the first `max_items` of the most-recently-updated-first order.
Note that it does not touch the in-memory dict itself. -/
def JobStore.save_ (s : JobStore) : JobStore :=
  if s.has_path then { s with saved := (sortByUpdatedDesc s.jobs).take s.max_items } else s

/-- `JobStore.create`. -/
def JobStore.create (s : JobStore) (job_id : String) (status : String) (now : Int) :
    JobStore × JobStatus :=
  let job : JobStatus := { job_id := job_id, status := status, created_at := now, updated_at := now }
  (JobStore.save_ { s with jobs := dictSet s.jobs job_id job }, job)

/-- `JobStore.update`; `none` models the `KeyError` raised (before any
mutation) when the id is unknown. -/
def JobStore.update (s : JobStore) (job_id : String) (f : JobFields) (now : Int) :
    Option (JobStore × JobStatus) :=
  match dictGet s.jobs job_id with
  | none => none
  | some job =>
    let job2 := applyFields job f now
    some (JobStore.save_ { s with jobs := dictSet s.jobs job_id job2 }, job2)

/-- `JobStore.get`. -/
def JobStore.get (s : JobStore) (job_id : String) : Option JobStatus := dictGet s.jobs job_id

/-- `JobStore.list`. -/
def JobStore.list (s : JobStore) (limit : Nat) : List JobStatus :=
  (sortByUpdatedDesc s.jobs).take limit

/-- `JobStore.delete`. -/
def JobStore.delete (s : JobStore) (job_id : String) : JobStore × Bool :=
  if (dictGet s.jobs job_id).isSome then
    (JobStore.save_ { s with jobs := dictRemove s.jobs job_id }, true)
  else (s, false)

/-- A mutating Job Store call, for reasoning about call sequences. -/
inductive JobOp where
  | create (job_id : String) (status : String)
  | update (job_id : String) (fields : JobFields)
  | delete (job_id : String)
deriving DecidableEq, Repr

/-- One mutating call at clock value `now`.  A `KeyError` from `update`
(raised before any mutation) leaves the store unchanged. -/
def stepJob (s : JobStore) (op : JobOp) (now : Int) : JobStore :=
  match op with
  | .create id st => (s.create id st now).1
  | .update id f =>
    match s.update id f now with
    | some (s', _) => s'
    | none => s
  | .delete id => (s.delete id).1

/-- Run a sequence of mutating calls, each with its clock value. -/
def runOps (s : JobStore) : List (Int × JobOp) → JobStore
  | [] => s
  | (t, op) :: rest => runOps (stepJob s op t) rest

/-- Every stored job was last touched no later than `t`. -/
def timeBound (s : JobStore) (t : Int) : Prop := ∀ j ∈ s.jobs, j.updated_at ≤ t

/-- The clock values of a call sequence are non-decreasing and start at or
after `t` (the wall clock does not run backwards across the calls). -/
def chron (t : Int) : List (Int × JobOp) → Prop
  | [] => True
  | (n, _) :: rest => t ≤ n ∧ chron n rest

/-! ### Retention / cleanup (`backend/cleanup.py`)

The filesystem is a list of existing files.  `in_glob` marks a file as being
listed by `audio_dir.glob("*.wav")`; `unlink_fails` marks a file whose
`unlink()` raises `OSError` (the sweep swallows the error, does not count the
file, and the file stays).  A history entry carries the two attributes the
sweep reads: `audio_path` (`none` models a missing key or empty value) and the
result of `datetime.fromisoformat(created_at)` (`none` models a missing or
unparseable timestamp).  `max_age_hours` is converted at 3600 time units per
hour. -/

structure FileInfo where
  path : String
  mtime : Int
  in_glob : Bool
  unlink_fails : Bool
deriving DecidableEq, Repr

structure HistoryEntry where
  job_id : String := ""
  audio_path : Option String := none
  created_at : Option Int := none
deriving DecidableEq, Repr

/-- `Path(p).exists()`. -/
def fileExists (files : List FileInfo) (p : String) : Bool := files.any (fun f => f.path == p)

/-- The deletion loop over `audio_dir.glob("*.wav")`: files older than the
cutoff are unlinked and counted; a failing unlink is skipped silently. -/
def sweepFiles (cutoff : Int) : List FileInfo → List FileInfo × Nat
  | [] => ([], 0)
  | f :: rest =>
    let r := sweepFiles cutoff rest
    if f.in_glob && decide (f.mtime < cutoff) then
      if f.unlink_fails then (f :: r.1, r.2) else (r.1, r.2 + 1)
    else (f :: r.1, r.2)

/-- First drop test of the history loop: `audio_path and not Path(audio_path).exists()`. -/
def entryFileMissing (files : List FileInfo) (e : HistoryEntry) : Bool :=
  match e.audio_path with
  | some p => !p.data.isEmpty && !fileExists files p
  | none => false

/-- Second drop test: the parsed `created_at` (defaulting to `now` when it
does not parse) predates the cutoff. -/
def entryExpired (now cutoff : Int) (e : HistoryEntry) : Bool :=
  decide ((e.created_at.getD now) < cutoff)

/-- The history filtering loop of `cleanup_outputs`: returns the surviving
entries in order together with the number of dropped entries. -/
def filterHistory (files : List FileInfo) (now cutoff : Int) :
    List HistoryEntry → List HistoryEntry × Nat
  | [] => ([], 0)
  | e :: rest =>
    let r := filterHistory files now cutoff rest
    if entryFileMissing files e then (r.1, r.2 + 1)
    else if entryExpired now cutoff e then (r.1, r.2 + 1)
    else (e :: r.1, r.2)

/-- An entry survives the filtering loop. -/
def keepEntry (files : List FileInfo) (now cutoff : Int) (e : HistoryEntry) : Bool :=
  !entryFileMissing files e && !entryExpired now cutoff e

structure CleanupResult where
  files : List FileInfo
  history : List HistoryEntry
  removed_files : Nat
  removed_history : Nat
  remaining_history : Nat
deriving DecidableEq, Repr

/-- `cleanup_outputs(audio_dir, history_path, max_age_hours, max_history)`:
the state passed in is the disk state (files and persisted history), the state
in the result is the disk state after the sweep. -/
def cleanup_outputs (files : List FileInfo) (history : List HistoryEntry)
    (now : Int) (max_age_hours : Nat) (max_history : Nat) : CleanupResult :=
  let cutoff : Int := now - 3600 * (max_age_hours : Int)
  let s := sweepFiles cutoff files
  let fh := filterHistory s.1 now cutoff history
  let removed_history :=
    if fh.1.length > max_history then fh.2 + (fh.1.length - max_history) else fh.2
  let final := if fh.1.length > max_history then fh.1.take max_history else fh.1
  { files := s.1
    history := final
    removed_files := s.2
    removed_history := removed_history
    remaining_history := final.length }

/-! ### Voice registry and TTS service (`backend/tts.py`) -/

structure VoicePreset where
  id : String
  model : String
  label : String
  language : String
  voice : Option String := none
  description : Option String := none
deriving DecidableEq, Repr

def parler_en_neutral : VoicePreset :=
  { id := "parler_en_neutral", model := "parler-tts/parler-tts-mini-v1.1",
    language := "en", label := "Parler Neutral",
    description := some "Parler-TTS avec prompt de style" }

def bark_en_0 : VoicePreset :=
  { id := "bark_en_0", model := "suno/bark-small", language := "en",
    label := "Bark Small EN", description := some "Modele Bark leger (<8GB VRAM), neutre" }

def speecht5_en_0 : VoicePreset :=
  { id := "speecht5_en_0", model := "microsoft/speecht5_tts", language := "en",
    label := "SpeechT5 EN",
    description := some "SpeechT5 + HiFiGAN vocoder, speaker embed par defaut" }

def mms_en_0 : VoicePreset :=
  { id := "mms_en_0", model := "facebook/mms-tts-eng", language := "en",
    label := "MMS EN Warm",
    description := some "Meta MMS TTS (CPU/<=8GB VRAM), voix naturelle style lecture." }

def xtts_v2_multi : VoicePreset :=
  { id := "xtts_v2_multi", model := "coqui/XTTS-v2", language := "multi",
    label := "XTTS v2 Clone", description := some "Voice cloning (voice_ref requis)." }

def f5_tts_multi : VoicePreset :=
  { id := "f5_tts_multi", model := "SWivid/F5-TTS", language := "multi",
    label := "F5-TTS Clone", description := some "Voice cloning moderne (voice_ref requis)." }

def cosyvoice3_multi : VoicePreset :=
  { id := "cosyvoice3_multi", model := "FunAudioLLM/Fun-CosyVoice3-0.5B-2512",
    language := "multi", label := "CosyVoice3 Multi",
    description := some "Voix expressive (voice_ref requis)." }

def kokoro_en_us_0 : VoicePreset :=
  { id := "kokoro_en_us_0", model := "hexgrad/Kokoro-82M", language := "en",
    label := "Kokoro US Neutral", description := some "Rapide, clair, anglais US" }

def kokoro_en_gb_0 : VoicePreset :=
  { id := "kokoro_en_gb_0", model := "hexgrad/Kokoro-82M", language := "en",
    label := "Kokoro UK Bright", description := some "Anglais UK, ton clair" }

def kokoro_fr_0 : VoicePreset :=
  { id := "kokoro_fr_0", model := "hexgrad/Kokoro-82M", language := "fr",
    label := "Kokoro Francais Clair", description := some "Francais, neutralite" }

def ALL_VOICE_PRESETS : List VoicePreset :=
  [parler_en_neutral, bark_en_0, speecht5_en_0, mms_en_0, xtts_v2_multi,
   f5_tts_multi, cosyvoice3_multi, kokoro_en_us_0, kokoro_en_gb_0, kokoro_fr_0]

/-- `VOICE_PRESETS`; `skip_kokoro` is `SKIP_KOKORO`, true under the default
`ORATIO_OPTIONAL_MODELS=kokoro`. -/
def voicePresetList (skip_kokoro : Bool) : List VoicePreset :=
  ALL_VOICE_PRESETS.filter (fun v => !(skip_kokoro && strContains (strLower v.model) "kokoro"))

/-- `VOICE_BY_ID` lookup (preset ids are distinct, so the first match is the
dict entry). -/
def voice_by_id (skip_kokoro : Bool) (vid : String) : Option VoicePreset :=
  (voicePresetList skip_kokoro).find? (fun v => v.id == vid)

/-- Which optional runtime dependencies import successfully in the current
environment (each flag is the success of the corresponding `import` attempted
by `_local_support`). -/
structure Pkgs where
  parler_tts : Bool := false
  transformers : Bool := false
  torch_speecht5 : Bool := false
  torch_mms : Bool := false
  kokoro : Bool := false
  tts_api : Bool := false
deriving DecidableEq, Repr

/-- One row of `ModelManager.status()` (`models.py`). -/
structure ModelStatus where
  repo_id : String
  exists_ : Bool
deriving DecidableEq, Repr

/-- Observable answers of the external `ModelManager` collaborator
(`models.py`): the `status()` rows.  The class also exposes `downloading`,
`needs_download()` and `download()`, none of which the code paths under claim
observe — and it defines no `resolve_model_path`, although `tts.py` calls
one. -/
structure ModelManagerM where
  status : List ModelStatus
deriving DecidableEq, Repr

/-- Observable answers of the `models_dir` fallback checks:
`(models_dir / name).exists()` and `any(models_dir.glob("*"))`. -/
structure ModelsDir where
  hasArtifact : String → Bool
  nonempty : Bool

/-- `TTSService` configuration plus its environment.  `base_audio_url` is
stored already right-stripped of `/` as the constructor does. -/
structure TTSService where
  audio_dir : String := "outputs/audio"
  base_audio_url : String := "/audio"
  hf_token : Option String := none
  use_stub : Bool := false
  fallback_stub : Bool := false
  provider : String := "auto"
  models_dir : Option ModelsDir := none
  model_manager : Option ModelManagerM := none
  pkgs : Pkgs := {}
  skip_kokoro : Bool := true

/-- `VOICE_REF_MODELS` membership: `TTSService._supports_voice_ref`. -/
def supports_voice_ref (model_id : String) : Bool :=
  strContains (strLower model_id) "xtts" || strContains (strLower model_id) "f5-tts" ||
    strContains (strLower model_id) "cosyvoice"

/-- `TTSService._local_support`: per backend family, whether the optional
dependency imports, with the human-readable reason when it does not. -/
def local_support (pkgs : Pkgs) (model_id : String) : Bool × Option String :=
  let l := strLower model_id
  if strContains l "parler-tts" then
    if pkgs.parler_tts then (true, none)
    else (false, some "Parler local requiert le package parler-tts.")
  else if strContains l "bark" then
    if pkgs.transformers then (true, none)
    else (false, some "Bark local requiert transformers installe.")
  else if strContains l "speecht5" then
    if pkgs.torch_speecht5 then (true, none)
    else (false, some "SpeechT5 local requiert torch + transformers installes.")
  else if strContains l "mms-tts" || strContains l "mms_tts" then
    if pkgs.torch_mms then (true, none)
    else (false, some "MMS local requiert torch + transformers installes.")
  else if strContains l "kokoro" then
    if pkgs.kokoro then (true, none)
    else (false, some "Kokoro local indisponible (package kokoro non supporte en Python 3.13); utilisez HF_TOKEN pour l inference ou restez en stub.")
  else if strContains l "xtts" then
    if pkgs.tts_api || pkgs.transformers then (true, none)
    else (false, some "XTTS local requiert TTS ou transformers installes.")
  else if strContains l "f5-tts" || strContains l "f5_tts" then
    if pkgs.transformers then (true, none)
    else (false, some "F5-TTS local requiert transformers installe.")
  else if strContains l "cosyvoice" then
    if pkgs.transformers then (true, none)
    else (false, some "CosyVoice local requiert transformers installe.")
  else (true, none)

/-- `TTSService._supports_local_model`. -/
def supports_local_model (pkgs : Pkgs) (model_id : String) : Bool :=
  (local_support pkgs model_id).1

/-- The message of the `AttributeError` raised when `tts.py` calls the
nonexistent `ModelManager.resolve_model_path` (apostrophes of the Python
message replaced by spaces per the file convention). -/
def resolve_model_path_error : String :=
  "ModelManager object has no attribute resolve_model_path"

/-- `TTSService._has_local_models`.  With a model manager attached, a truthy
model id and a runtime-supported family, when no status row matches, the
source falls through its loop to `self.model_manager.resolve_model_path(model_id)`
(tts.py:500) — a method the in-repo `ModelManager` does not define — so that
path raises `AttributeError`, modelled as the `Except.error` case. -/
def has_local_models (svc : TTSService) (model_id : Option String) :
    Except String Bool :=
  if optTruthy model_id && !supports_local_model svc.pkgs (model_id.getD "") then .ok false
  else
    match svc.model_manager with
    | some mm =>
      if optTruthy model_id then
        let mid := model_id.getD ""
        if mm.status.any fun st =>
            st.exists_ && st.repo_id == mid && supports_local_model svc.pkgs st.repo_id then
          .ok true
        else .error resolve_model_path_error
      else
        .ok (mm.status.any fun st => st.exists_ && supports_local_model svc.pkgs st.repo_id)
    | none =>
      match svc.models_dir with
      | some d =>
        if optTruthy model_id then .ok (d.hasArtifact (strReplaceSlash (model_id.getD "")))
        else .ok d.nonempty
      | none => .ok false

/-- `TTSService._resolve_provider`; an `AttributeError` escaping
`_has_local_models` propagates out of resolution. -/
def resolve_provider (svc : TTSService) (model_id : Option String) :
    Except String String :=
  if svc.provider == "local" || svc.provider == "inference" || svc.provider == "stub" then
    .ok svc.provider
  else
    match has_local_models svc model_id with
    | .error e => .error e
    | .ok b =>
      if b then .ok "local"
      else if optTruthy svc.hf_token then .ok "inference"
      else .ok "stub"

/-- `TTSService._resolve_voice_ref`; the payload (URL string, file bytes or
raw string) is abstracted to the trimmed string, since only its `None`-ness
is observed downstream. -/
def resolve_voice_ref (voice_ref : Option String) : Option String :=
  match voice_ref with
  | none => none
  | some v =>
    if v.data.isEmpty then none
    else
      let trimmed := strStrip v
      if trimmed.data.isEmpty then none else some trimmed

/-- The canonical `AudioResult` of `tts.py`. -/
structure AudioResult where
  job_id : String
  audio_path : String
  audio_url : String
  duration_seconds : ℚ
  created_at : Int
  model : String
  voice_id : String
  source : String
deriving DecidableEq, Repr

/-- `_generate_stub_audio` returns `max(1.0, min(5.0, len(text) / 20.0)) / speed`
as the duration of the tone it writes. -/
def generate_stub_duration (text : String) (speed : ℚ) : ℚ :=
  max 1 (min 5 ((text.data.length : ℚ) / 20)) / speed

/-- The stub-path `AudioResult` literal of `synthesize` (built three times in
the source with identical fields). -/
def mkStubResult (svc : TTSService) (voice_model voice_id_arg job_id : String)
    (text : String) (speed : ℚ) (created_at : Int) : AudioResult :=
  { job_id := job_id
    audio_path := svc.audio_dir ++ "/" ++ job_id ++ ".wav"
    audio_url := svc.base_audio_url ++ "/" ++ job_id ++ ".wav"
    duration_seconds := generate_stub_duration text speed
    created_at := created_at
    model := voice_model
    voice_id := voice_id_arg
    source := "stub" }

inductive SynthError where
  | valueError (msg : String)
  | runtimeError (msg : String)
  | attributeError (msg : String)
  | backendError (msg : String)
deriving DecidableEq, Repr

def SynthError.message : SynthError → String
  | .valueError m => m
  | .runtimeError m => m
  | .attributeError m => m
  | .backendError m => m

structure SynthRequest where
  text : String
  voice_id : String
  speed : ℚ := 1
  style : Option String := none
  voice_ref : Option String := none
  job_id : Option String := none
  provider : Option String := none

/-- `job_id = job_id or str(uuid.uuid4())`. -/
def jobIdOf (req : SynthRequest) (uuid4 : String) : String :=
  match req.job_id with
  | some j => if j.data.isEmpty then uuid4 else j
  | none => uuid4

/-- `resolved_provider = provider or self._resolve_provider(voice.model)`:
a truthy per-request provider short-circuits, so resolution (and its
possible `AttributeError`) is not reached. -/
def resolvedProviderOf (svc : TTSService) (req : SynthRequest) (voice : VoicePreset) :
    Except String String :=
  match req.provider with
  | some p => if p.data.isEmpty then resolve_provider svc (some voice.model) else .ok p
  | none => resolve_provider svc (some voice.model)

/-- The two local-provider availability checks performed before the `try`
block of `synthesize` (they raise `RuntimeError` directly to the caller). -/
def local_precheck (svc : TTSService) (voice : VoicePreset) (resolved_provider : String) :
    Option SynthError :=
  if resolved_provider == "local" then
    let sr := local_support svc.pkgs voice.model
    if !sr.1 then some (.runtimeError (sr.2.getD "Modele local indisponible."))
    else
      match has_local_models svc (some voice.model) with
      | .error e => some (.attributeError e)
      | .ok b =>
        if !b then
          some (.runtimeError "Modele local manquant. Telechargez-le via l onglet Modeles.")
        else none
  else none

/-- The voice-reference validation performed before the `try` block of
`synthesize` (it raises `ValueError` directly to the caller). -/
def voice_ref_check (voice : VoicePreset) (resolved_provider : String)
    (voice_ref : Option String) : Option SynthError :=
  if supports_voice_ref voice.model then
    if resolved_provider == "inference" then
      if (resolve_voice_ref voice_ref).isNone then
        some (.valueError "Ce modele requiert une reference de voix (voice_ref).")
      else none
    else
      if blankOpt voice_ref then
        some (.valueError "Ce modele requiert une reference de voix (voice_ref).")
      else none
  else none

/-- The body of the `try` block of `synthesize`: dispatch on the resolved
provider.  `backendRun` is the oracle for the external backend call; a
provider that is neither `local` nor `inference` falls to the in-`try` stub
generation, which cannot raise in this model. -/
def dispatch (svc : TTSService) (voice : VoicePreset) (resolved_provider job_id : String)
    (text : String) (voice_id_arg : String) (speed : ℚ) (created_at : Int)
    (backendRun : String → Except String ℚ) : Except String AudioResult :=
  if resolved_provider == "local" then
    (backendRun "local").map fun dur =>
      { job_id := job_id
        audio_path := svc.audio_dir ++ "/" ++ job_id ++ ".wav"
        audio_url := svc.base_audio_url ++ "/" ++ job_id ++ ".wav"
        duration_seconds := dur
        created_at := created_at
        model := voice.model
        voice_id := voice.id
        source := "local" }
  else if resolved_provider == "inference" then
    (backendRun "inference").map fun dur =>
      { job_id := job_id
        audio_path := svc.audio_dir ++ "/" ++ job_id ++ ".wav"
        audio_url := svc.base_audio_url ++ "/" ++ job_id ++ ".wav"
        duration_seconds := dur
        created_at := created_at
        model := voice.model
        voice_id := voice.id
        source := "inference" }
  else
    .ok (mkStubResult svc voice.model voice_id_arg job_id text speed created_at)

/-- `TTSService.synthesize`. -/
def synthesize (svc : TTSService) (req : SynthRequest) (uuid4 : String) (created_at : Int)
    (backendRun : String → Except String ℚ) : Except SynthError AudioResult :=
  match voice_by_id svc.skip_kokoro req.voice_id with
  | none => .error (.valueError ("Unknown voice_id: " ++ req.voice_id))
  | some voice =>
    let job_id := jobIdOf req uuid4
    match resolvedProviderOf svc req voice with
    | .error e => .error (.attributeError e)
    | .ok resolved_provider =>
    if svc.use_stub || resolved_provider == "stub" then
      .ok (mkStubResult svc voice.model req.voice_id job_id req.text req.speed created_at)
    else
      match local_precheck svc voice resolved_provider with
      | some e => .error e
      | none =>
        match voice_ref_check voice resolved_provider req.voice_ref with
        | some e => .error e
        | none =>
          match dispatch svc voice resolved_provider job_id req.text req.voice_id req.speed
              created_at backendRun with
          | .ok r => .ok r
          | .error msg =>
            if !svc.fallback_stub && resolved_provider != "stub" then
              .error (.backendError msg)
            else
              .ok (mkStubResult svc voice.model req.voice_id job_id req.text req.speed created_at)

/-- The `source` tag of a successful synthesis, `none` on error. -/
def synthSource : Except SynthError AudioResult → Option String
  | .ok r => some r.source
  | .error _ => none

/-! Spec-side definitions for the provider-resolution claim (following the
words of spec §4.5, to be compared with `resolve_provider`). -/

/-- A local artifact for the model is present according to the observable
collaborators: a `status()` row with `exists` for the model when the manager
is attached, else the models-directory check. -/
def spec_local_artifact_present (svc : TTSService) (mid : String) : Bool :=
  match svc.model_manager with
  | some mm => mm.status.any (fun st => st.exists_ && st.repo_id == mid)
  | none =>
    match svc.models_dir with
    | some d => d.hasArtifact (strReplaceSlash mid)
    | none => false

/-- Provider resolution as the amended claim words it: an explicit provider
wins; otherwise local when the artifact is present and the family is
runtime-supported; otherwise, when the family is supported and a model
manager is attached, resolution raises the `resolve_model_path`
`AttributeError` instead of falling through; in the remaining cases,
inference when a credential is configured, else stub. -/
def spec_resolve_provider (svc : TTSService) (mid : String) : Except String String :=
  if svc.provider == "local" || svc.provider == "inference" || svc.provider == "stub" then
    .ok svc.provider
  else if spec_local_artifact_present svc mid && supports_local_model svc.pkgs mid then
    .ok "local"
  else if supports_local_model svc.pkgs mid && svc.model_manager.isSome then
    .error resolve_model_path_error
  else if optTruthy svc.hf_token then .ok "inference"
  else .ok "stub"

/-! ### HTTP-layer orchestration (`backend/main.py`)

Only the parts the claims observe: the history document (`_record_history` /
`append_history` prepend), `_run_job`, and the `/synthesize` endpoint in its
synchronous mode.  Each store mutation reads the clock, so the clock values
are explicit arguments (`t0` for `create`, `t1` for the `running` update,
`tS` for `synthesize`, `t2` for the final update). -/

structure HistEntry where
  job_id : String
  text_preview : String
  model : String
  voice_id : String
  audio_path : String
  audio_url : String
  duration_seconds : ℚ
  created_at : Int
  source : String
deriving DecidableEq, Repr

/-- The entry `_record_history` builds and prepends. -/
def record_history_entry (result : AudioResult) (text : String) : HistEntry :=
  { job_id := result.job_id
    text_preview := strTake text 160
    model := result.model
    voice_id := result.voice_id
    audio_path := result.audio_path
    audio_url := result.audio_url
    duration_seconds := result.duration_seconds
    created_at := result.created_at
    source := result.source }

/-- `_run_job`: mark running, synthesize, then record history and mark
succeeded, or mark failed with the error message.  `none` models an
unhandled `KeyError` from the store (impossible when the job was created
first). -/
def run_job (store : JobStore) (hist : List HistEntry) (svc : TTSService)
    (job_id text voice_id : String) (speed : ℚ) (style : Option String)
    (uuid4 : String) (backendRun : String → Except String ℚ)
    (t1 tS t2 : Int) : Option (JobStore × List HistEntry × JobStatus) :=
  match store.update job_id { status := some "running" } t1 with
  | none => none
  | some st1 =>
    match synthesize svc
        { text := text, voice_id := voice_id, speed := speed, style := style,
          job_id := some job_id } uuid4 tS backendRun with
    | .ok result =>
      let hist2 := record_history_entry result text :: hist
      match st1.1.update job_id
          { status := some "succeeded"
            audio_url := some (some result.audio_url)
            duration_seconds := some (some result.duration_seconds)
            model := some (some result.model)
            voice_id := some (some result.voice_id)
            source := some (some result.source) } t2 with
      | none => none
      | some st2 => some (st2.1, hist2, st2.2)
    | .error e =>
      match st1.1.update job_id { status := some "failed", error := some (some e.message) } t2 with
      | none => none
      | some st2 => some (st2.1, hist, st2.2)

/-- The `/synthesize` endpoint, synchronous mode: strip and validate the
text (HTTP 422 leaves the state untouched and returns no job), create the
job in `queued` state, then run it.  The returned `JobStatus` is the
response body. -/
def api_synthesize (store : JobStore) (hist : List HistEntry) (svc : TTSService)
    (text voice_id : String) (speed : ℚ) (style : Option String)
    (job_uuid uuid4 : String) (backendRun : String → Except String ℚ)
    (t0 t1 tS t2 : Int) : JobStore × List HistEntry × Option JobStatus :=
  let text2 := strStrip text
  if text2.data.isEmpty then (store, hist, none)
  else
    let c := store.create job_uuid "queued" t0
    match run_job c.1 hist svc job_uuid text2 voice_id speed style uuid4 backendRun t1 tS t2 with
    | some out => (out.1, out.2.1, some out.2.2)
    | none => (c.1, hist, none)

/-- The raised error of a synthesis, `none` on success. -/
def synthErrorOf : Except SynthError AudioResult → Option SynthError
  | .ok _ => none
  | .error e => some e

/-- Is a Job Store call a `delete`? -/
def JobOp.isDelete : JobOp → Bool
  | .delete _ => true
  | _ => false

/-! ### Concrete instances used in the theorems below -/

/-- An environment where every optional dependency imports successfully. -/
def allPkgs : Pkgs :=
  { parler_tts := true, transformers := true, torch_speecht5 := true,
    torch_mms := true, kokoro := true, tts_api := true }

/-- Fallback enabled, every dependency available, but no model manager and no
models directory: no local artifact can be found. -/
def cexC1svc : TTSService := { fallback_stub := true, pkgs := allPkgs }

/-- A dispatch oracle whose backend call always fails. -/
def failingBackend : String → Except String ℚ := fun _ => .error "backend down"

def cexC3run : JobStore :=
  stepJob
    (stepJob (stepJob {} (.create "a" "queued") 0) (.update "a" { status := some "failed" }) 1)
    (.update "a" { status := some "queued" }) 2

def cexC5s2 : JobStore :=
  (JobStore.create (JobStore.create { max_items := 1 } "a" "queued" 0).1 "b" "queued" 1).1

def cexC4out : JobStore × List HistEntry × Option JobStatus :=
  api_synthesize {} [] {} "hello" "nope" 1 none "job-1" "u-1" failingBackend 0 1 2 3

def exE1 : HistoryEntry := { job_id := "1", audio_path := some "a1.wav", created_at := some 100 }
def exE2 : HistoryEntry := { job_id := "2", audio_path := some "a2.wav", created_at := some 90 }
def exE3 : HistoryEntry := { job_id := "3", audio_path := some "a3.wav", created_at := some 80 }

def exFiles : List FileInfo :=
  [⟨"a1.wav", 100, true, false⟩, ⟨"a2.wav", 90, true, false⟩, ⟨"a3.wav", 80, true, false⟩]

def cexC2mm : ModelManagerM := { status := [] }

/-- Auto mode, HF token configured, model manager attached (as `main.py`
always attaches it) with no artifact rows. -/
def cexC2svc : TTSService :=
  { hf_token := some "tok", pkgs := allPkgs, model_manager := some cexC2mm }

def witC3store : JobStore := (JobStore.create {} "a" "queued" 0).1

def witC1svc : TTSService := { hf_token := some "t" }

def witC1req : SynthRequest :=
  { text := "hi", voice_id := "bark_en_0", provider := some "inference", job_id := some "j" }

def witC7req : SynthRequest :=
  { text := "hi", voice_id := "xtts_v2_multi", provider := some "inference", job_id := some "j" }

def witC9req : SynthRequest :=
  { text := "hello", voice_id := "parler_en_neutral", speed := 1, provider := some "stub" }

def witC10store : JobStore := (JobStore.create {} "w" "queued" 5).1

/-! ### Lemmas about the in-memory dict -/

theorem dictGet_some {l : List JobStatus} {id : String} {j : JobStatus}
    (h : dictGet l id = some j) : j.job_id = id := by
  have := List.find?_some h
  simpa using this

theorem dictGet_mem {l : List JobStatus} {id : String} {j : JobStatus}
    (h : dictGet l id = some j) : j ∈ l :=
  List.mem_of_find?_eq_some h

theorem find?_map_replace {id : String} {j : JobStatus} (h : j.job_id = id)
    (l : List JobStatus) :
    List.find? (fun x => x.job_id == id)
        (l.map (fun x => if x.job_id == id then j else x))
      = if (List.find? (fun x => x.job_id == id) l).isSome then some j else none := by
  induction l with
  | nil => rfl
  | cons x xs ih =>
    cases hx : (x.job_id == id) with
    | true =>
      have hj : (j.job_id == id) = true := by simp [h]
      simp only [List.map_cons, List.find?_cons, hx, eq_self_iff_true, if_true, hj,
        Option.isSome_some]
    | false =>
      simp only [List.map_cons, List.find?_cons, hx, Bool.false_eq_true, if_false]
      exact ih

theorem find?_map_replace_ne {id id' : String} {j : JobStatus} (h : j.job_id = id)
    (hne : id' ≠ id) (l : List JobStatus) :
    List.find? (fun x => x.job_id == id')
        (l.map (fun x => if x.job_id == id then j else x))
      = List.find? (fun x => x.job_id == id') l := by
  induction l with
  | nil => rfl
  | cons x xs ih =>
    cases hx : (x.job_id == id) with
    | true =>
      have hxid : x.job_id = id := by simpa using hx
      have hj' : (j.job_id == id') = false := by simp [h]; exact fun hc => hne hc.symm
      have hx' : (x.job_id == id') = false := by simp [hxid]; exact fun hc => hne hc.symm
      simp only [List.map_cons, List.find?_cons, hx, eq_self_iff_true, if_true, hj', hx']
      exact ih
    | false =>
      cases hx3 : (x.job_id == id') with
      | true =>
        simp only [List.map_cons, List.find?_cons, hx, Bool.false_eq_true, if_false, hx3]
      | false =>
        simp only [List.map_cons, List.find?_cons, hx, Bool.false_eq_true, if_false, hx3]
        exact ih

theorem dictGet_dictSet_self {l : List JobStatus} {id : String} {j : JobStatus}
    (h : j.job_id = id) : dictGet (dictSet l id j) id = some j := by
  unfold dictSet dictGet
  split
  · rename_i hfind
    rw [find?_map_replace h, if_pos hfind]
  · rename_i hfind
    have hnone : List.find? (fun x => x.job_id == id) l = none :=
      Option.not_isSome_iff_eq_none.mp hfind
    rw [List.find?_append, hnone]
    simp [List.find?_cons, h]

theorem dictGet_dictSet_ne {l : List JobStatus} {id id' : String} {j : JobStatus}
    (hj : j.job_id = id) (hne : id' ≠ id) :
    dictGet (dictSet l id j) id' = dictGet l id' := by
  have hjne : (j.job_id == id') = false := by simp [hj]; exact fun hc => hne hc.symm
  unfold dictSet dictGet
  split
  · exact find?_map_replace_ne hj hne l
  · rw [List.find?_append]
    simp [List.find?_cons, hjne]

theorem dictGet_dictRemove_self {l : List JobStatus} {id : String} :
    dictGet (dictRemove l id) id = none := by
  unfold dictRemove dictGet
  induction l with
  | nil => rfl
  | cons x xs ih =>
    cases hx : (x.job_id == id) with
    | true =>
      rw [List.filter_cons]
      simp only [bne, hx, Bool.not_true, Bool.false_eq_true, if_false]
      exact ih
    | false =>
      rw [List.filter_cons]
      simp only [bne, hx, Bool.not_false, if_true]
      rw [List.find?_cons, hx]
      exact ih

theorem dictGet_dictRemove_ne {l : List JobStatus} {id id' : String} (hne : id' ≠ id) :
    dictGet (dictRemove l id) id' = dictGet l id' := by
  unfold dictRemove dictGet
  induction l with
  | nil => rfl
  | cons x xs ih =>
    cases hx : (x.job_id == id) with
    | true =>
      have hxid : x.job_id = id := by simpa using hx
      have hx2 : (x.job_id == id') = false := by simp [hxid]; exact fun hc => hne hc.symm
      rw [List.filter_cons]
      simp only [bne, hx, Bool.not_true, Bool.false_eq_true, if_false]
      rw [List.find?_cons, hx2]
      exact ih
    | false =>
      rw [List.filter_cons]
      simp only [bne, hx, Bool.not_false, if_true]
      rw [List.find?_cons, List.find?_cons]
      cases hx3 : (x.job_id == id') with
      | true => rfl
      | false => exact ih

theorem mem_dictSet {l : List JobStatus} {id : String} {j a : JobStatus}
    (h : a ∈ dictSet l id j) : a = j ∨ a ∈ l := by
  unfold dictSet at h
  split at h
  · rcases List.mem_map.mp h with ⟨x, hx, hfx⟩
    by_cases hxx : x.job_id = id
    · simp [hxx] at hfx; exact Or.inl hfx.symm
    · simp [hxx] at hfx; exact Or.inr (hfx ▸ hx)
  · rcases List.mem_append.mp h with h1 | h1
    · exact Or.inr h1
    · simp at h1; exact Or.inl h1

theorem mem_dictRemove {l : List JobStatus} {id : String} {a : JobStatus}
    (h : a ∈ dictRemove l id) : a ∈ l :=
  List.mem_of_mem_filter h

/-! ### Lemmas about the store operations -/

theorem save__jobs (s : JobStore) : (JobStore.save_ s).jobs = s.jobs := by
  unfold JobStore.save_; split <;> rfl

theorem save__get (s : JobStore) (id : String) : (JobStore.save_ s).get id = s.get id := by
  simp [JobStore.get, save__jobs]

theorem save__max_items (s : JobStore) : (JobStore.save_ s).max_items = s.max_items := by
  unfold JobStore.save_; split <;> rfl

theorem save__has_path (s : JobStore) : (JobStore.save_ s).has_path = s.has_path := by
  unfold JobStore.save_; split <;> rfl

theorem save__saved_le (s : JobStore) (hs : s.saved.length ≤ s.max_items) :
    (JobStore.save_ s).saved.length ≤ s.max_items := by
  unfold JobStore.save_
  split
  · exact List.length_take_le s.max_items (sortByUpdatedDesc s.jobs)
  · exact hs

/-! ### Step lemmas for sequences of Job Store calls -/

theorem timeBound_mono {s : JobStore} {t t' : Int} (h : timeBound s t) (ht : t ≤ t') :
    timeBound s t' := fun j hj => le_trans (h j hj) ht

theorem stepJob_timeBound {s : JobStore} {t : Int} (op : JobOp) {now : Int}
    (hb : timeBound s t) (ht : t ≤ now) : timeBound (stepJob s op now) now := by
  cases op with
  | create id st =>
    intro a ha
    simp only [stepJob, JobStore.create, save__jobs] at ha
    rcases mem_dictSet ha with rfl | ha
    · exact le_refl now
    · exact le_trans (hb a ha) ht
  | update id f =>
    simp only [stepJob]
    cases hu : JobStore.update s id f now with
    | none => exact timeBound_mono hb ht
    | some p =>
      intro a ha
      unfold JobStore.update at hu
      cases hget : dictGet s.jobs id with
      | none => rw [hget] at hu; exact absurd hu (by simp)
      | some job =>
        rw [hget] at hu
        simp only [Option.some.injEq] at hu
        rw [← hu] at ha
        simp only [save__jobs] at ha
        rcases mem_dictSet ha with rfl | ha
        · exact le_refl now
        · exact le_trans (hb a ha) ht
  | delete id =>
    intro a ha
    simp only [stepJob, JobStore.delete] at ha
    by_cases hd : (dictGet s.jobs id).isSome
    · rw [if_pos hd] at ha
      simp only [save__jobs] at ha
      exact le_trans (hb a (mem_dictRemove ha)) ht
    · rw [if_neg hd] at ha
      exact le_trans (hb a ha) ht

theorem stepJob_get_mono {s : JobStore} {t now : Int} {op : JobOp} {id : String}
    {j j' : JobStatus} (hb : timeBound s t) (ht : t ≤ now)
    (h1 : s.get id = some j) (h2 : (stepJob s op now).get id = some j') :
    j.updated_at ≤ j'.updated_at := by
  have h1' : dictGet s.jobs id = some j := h1
  have hjt : j.updated_at ≤ now := le_trans (hb j (dictGet_mem h1)) ht
  cases op with
  | create opid st =>
    simp only [stepJob, JobStore.create, JobStore.get, save__jobs] at h2
    have hid : ({ job_id := opid, status := st, created_at := now, updated_at := now } : JobStatus).job_id = opid := rfl
    by_cases he : id = opid
    · subst he
      rw [dictGet_dictSet_self hid] at h2
      cases h2
      exact hjt
    · rw [dictGet_dictSet_ne hid he] at h2
      rw [h1'] at h2; cases h2; exact le_refl _
  | update opid f =>
    simp only [stepJob] at h2
    cases hu : JobStore.update s opid f now with
    | none =>
      rw [hu] at h2
      rw [h1] at h2; cases h2; exact le_refl _
    | some p =>
      rw [hu] at h2
      unfold JobStore.update at hu
      cases hget : dictGet s.jobs opid with
      | none => rw [hget] at hu; exact absurd hu (by simp)
      | some job =>
        rw [hget] at hu
        simp only [Option.some.injEq] at hu
        have hjobs : p.1.jobs = dictSet s.jobs opid (applyFields job f now) := by
          rw [← hu]; exact save__jobs _
        have hid2 : (applyFields job f now).job_id = opid := by
          simpa [applyFields] using dictGet_some hget
        by_cases he : id = opid
        · subst he
          rw [JobStore.get, hjobs, dictGet_dictSet_self hid2] at h2
          cases h2
          exact hjt
        · rw [JobStore.get, hjobs, dictGet_dictSet_ne hid2 he] at h2
          rw [h1'] at h2; cases h2; exact le_refl _
  | delete opid =>
    simp only [stepJob, JobStore.delete] at h2
    by_cases hd : (dictGet s.jobs opid).isSome
    · rw [if_pos hd] at h2
      simp only [JobStore.get, save__jobs] at h2
      by_cases he : id = opid
      · subst he
        rw [dictGet_dictRemove_self] at h2
        cases h2
      · rw [dictGet_dictRemove_ne he] at h2
        rw [h1'] at h2; cases h2; exact le_refl _
    · rw [if_neg hd] at h2
      rw [h1] at h2; cases h2; exact le_refl _

theorem stepJob_get_some {s : JobStore} {now : Int} {op : JobOp} {id : String}
    {j : JobStatus} (h1 : s.get id = some j) (hop : op ≠ .delete id) :
    ∃ j2, (stepJob s op now).get id = some j2 := by
  have h1' : dictGet s.jobs id = some j := h1
  cases op with
  | create opid st =>
    simp only [stepJob, JobStore.create, JobStore.get, save__jobs]
    have hid : ({ job_id := opid, status := st, created_at := now, updated_at := now } : JobStatus).job_id = opid := rfl
    by_cases he : id = opid
    · subst he
      exact ⟨_, dictGet_dictSet_self hid⟩
    · rw [dictGet_dictSet_ne hid he]
      exact ⟨j, h1'⟩
  | update opid f =>
    simp only [stepJob]
    cases hu : JobStore.update s opid f now with
    | none => exact ⟨j, h1⟩
    | some p =>
      unfold JobStore.update at hu
      cases hget : dictGet s.jobs opid with
      | none => rw [hget] at hu; exact absurd hu (by simp)
      | some job =>
        rw [hget] at hu
        simp only [Option.some.injEq] at hu
        have hjobs : p.1.jobs = dictSet s.jobs opid (applyFields job f now) := by
          rw [← hu]; exact save__jobs _
        have hid2 : (applyFields job f now).job_id = opid := by
          simpa [applyFields] using dictGet_some hget
        by_cases he : id = opid
        · subst he
          exact ⟨_, by rw [JobStore.get, hjobs, dictGet_dictSet_self hid2]⟩
        · exact ⟨j, by rw [JobStore.get, hjobs, dictGet_dictSet_ne hid2 he]; exact h1⟩
  | delete opid =>
    have he : id ≠ opid := fun hc => hop (by rw [hc])
    simp only [stepJob, JobStore.delete]
    by_cases hd : (dictGet s.jobs opid).isSome
    · rw [if_pos hd]
      simp only [JobStore.get, save__jobs]
      rw [dictGet_dictRemove_ne he]
      exact ⟨j, h1⟩
    · rw [if_neg hd]
      exact ⟨j, h1⟩

theorem runOps_get_mono {ops : List (Int × JobOp)} {s : JobStore} {t : Int} {id : String}
    {j j' : JobStatus} (hb : timeBound s t) (hc : chron t ops)
    (hnd : ∀ p ∈ ops, p.2.isDelete = false)
    (h1 : s.get id = some j) (h2 : (runOps s ops).get id = some j') :
    j.updated_at ≤ j'.updated_at := by
  induction ops generalizing s t j with
  | nil =>
    simp only [runOps] at h2
    rw [h1] at h2; cases h2; exact le_refl _
  | cons p rest ih =>
    obtain ⟨n, op⟩ := p
    obtain ⟨htn, hcrest⟩ := hc
    have hopnd : op.isDelete = false := hnd (n, op) (List.mem_cons_self _ _)
    have hopne : op ≠ .delete id := by
      intro hc'; rw [hc'] at hopnd; exact absurd hopnd (by simp [JobOp.isDelete])
    obtain ⟨j2, hj2⟩ := @stepJob_get_some s n op id j h1 hopne
    have hb2 : timeBound (stepJob s op n) n := stepJob_timeBound op hb htn
    have step1 : j.updated_at ≤ j2.updated_at := stepJob_get_mono hb htn h1 hj2
    have step2 : j2.updated_at ≤ j'.updated_at := by
      refine ih hb2 hcrest ?_ hj2 h2
      intro q hq; exact hnd q (List.mem_cons_of_mem _ hq)
    exact le_trans step1 step2

/-! ### Claims about the Job Store -/

/-- C3 (counterexample): the claim fails as stated.  `JobStore.update` places
no restriction on the new status: after a job reaches the terminal status
`failed` at time 1, a further `update` naming `status` moves it back to
`queued` at time 2 — the status leaves a terminal state. -/
theorem C3_cex_terminal_escape :
    (((stepJob (stepJob ({} : JobStore) (.create "a" "queued") 0)
        (.update "a" { status := some "failed" }) 1)).get "a").map JobStatus.status
      = some "failed" ∧
    (cexC3run.get "a").map JobStatus.status = some "queued" := by decide

/-- C3 (amended): across any sequence of create/update calls through the Job
Store made under a non-decreasing clock, `updated_at` is non-decreasing for
every job id; the terminal-state half of the claim is dropped, since the
store does not enforce it (see the counterexample). -/
theorem C3_amended_updated_at_monotone (ops : List (Int × JobOp)) (s : JobStore) (t : Int)
    (id : String) (j j' : JobStatus) (hb : timeBound s t) (hc : chron t ops)
    (hnd : ∀ p ∈ ops, p.2.isDelete = false)
    (h1 : s.get id = some j) (h2 : (runOps s ops).get id = some j') :
    j.updated_at ≤ j'.updated_at :=
  runOps_get_mono hb hc hnd h1 h2

theorem C3_amended_updated_at_monotone_witness :
    timeBound witC3store 0 ∧
    chron 0 [((1 : Int), JobOp.update "a" { status := some "running" })] ∧
    (∀ p ∈ [((1 : Int), JobOp.update "a" { status := some "running" })],
      p.2.isDelete = false) ∧
    witC3store.get "a"
      = some { job_id := "a", status := "queued", created_at := 0, updated_at := 0 } ∧
    (runOps witC3store [((1 : Int), JobOp.update "a" { status := some "running" })]).get "a"
      = some { job_id := "a", status := "running", created_at := 0, updated_at := 1 } ∧
    ({ job_id := "a", status := "queued", created_at := 0, updated_at := 0 } : JobStatus).updated_at
      ≤ ({ job_id := "a", status := "running", created_at := 0, updated_at := 1 } : JobStatus).updated_at := by
  refine ⟨?_, ?_, ?_, ?_, ?_, ?_⟩
  · intro x hx
    fin_cases hx; decide
  · exact ⟨by decide, trivial⟩
  · decide
  · decide
  · decide
  · exact C3_amended_updated_at_monotone
      [((1 : Int), JobOp.update "a" { status := some "running" })] witC3store 0 "a"
      { job_id := "a", status := "queued", created_at := 0, updated_at := 0 }
      { job_id := "a", status := "running", created_at := 0, updated_at := 1 }
      (by intro x hx; fin_cases hx; decide) ⟨by decide, trivial⟩ (by decide) (by decide)
      (by decide)

/-- C5 (counterexample): the claim fails as stated.  With `max_items = 1`,
creating jobs `a` then `b` drops `a` from the persisted document, but the
in-memory dict is not trimmed: `a` is still returned by `get` and listed by
`list`, so a dropped job id is not "subsequently absent from get and list". -/
theorem C5_cex_dropped_still_visible :
    cexC5s2.saved.map JobStatus.job_id = ["b"] ∧
    (cexC5s2.get "a").isSome = true ∧
    (cexC5s2.list 50).map JobStatus.job_id = ["b", "a"] := by decide

/-- C5 (amended): after any mutating Job Store call on a store with a backing
path whose persisted document is within the cap, the persisted document still
holds at most `max_items` jobs (entries beyond the cap, oldest by
`updated_at`, are dropped from it silently — the call returns normally); the
in-memory map is not trimmed, so any job id present before the call, other
than the target of a `delete`, is still returned by `get` afterwards. -/
theorem C5_amended_retention_cap (s : JobStore) (op : JobOp) (now : Int)
    (_hpath : s.has_path = true) (hsaved : s.saved.length ≤ s.max_items) :
    (stepJob s op now).saved.length ≤ s.max_items ∧
    ∀ id j, s.get id = some j → op ≠ JobOp.delete id →
      ∃ j2, (stepJob s op now).get id = some j2 := by
  constructor
  · cases op with
    | create opid st =>
      exact save__saved_le _ hsaved
    | update opid f =>
      simp only [stepJob]
      cases hu : JobStore.update s opid f now with
      | none => exact hsaved
      | some p =>
        unfold JobStore.update at hu
        cases hget : dictGet s.jobs opid with
        | none => rw [hget] at hu; exact absurd hu (by simp)
        | some job =>
          rw [hget] at hu
          simp only [Option.some.injEq] at hu
          rw [← hu]
          exact save__saved_le _ hsaved
    | delete opid =>
      simp only [stepJob, JobStore.delete]
      by_cases hd : (dictGet s.jobs opid).isSome
      · rw [if_pos hd]
        exact save__saved_le _ hsaved
      · rw [if_neg hd]
        exact hsaved
  · intro id j h1 hop
    exact stepJob_get_some h1 hop

theorem C5_amended_retention_cap_witness :
    cexC5s2.has_path = true ∧ cexC5s2.saved.length ≤ cexC5s2.max_items ∧
    ((stepJob cexC5s2 (.create "c" "queued") 2).saved.length ≤ cexC5s2.max_items ∧
      ∀ id j, cexC5s2.get id = some j → JobOp.create "c" "queued" ≠ JobOp.delete id →
        ∃ j2, (stepJob cexC5s2 (.create "c" "queued") 2).get id = some j2) :=
  ⟨by decide, by decide,
    C5_amended_retention_cap cexC5s2 (.create "c" "queued") 2 (by decide) (by decide)⟩

/-- C10 (confirmed): an `update` call changes exactly the attributes named in
`fields` plus `updated_at` (set to the call time); every attribute not named
— `created_at`, `status`, `audio_url`, `duration_seconds`, `model`,
`voice_id`, `source`, `error` — keeps its previous value, and the updated
record is what `get` subsequently returns. -/
theorem C10_update_frame (s : JobStore) (id : String) (f : JobFields) (now : Int)
    (s' : JobStore) (j j' : JobStatus)
    (hget : s.get id = some j) (hupd : s.update id f now = some (s', j')) :
    s'.get id = some j' ∧ j'.job_id = j.job_id ∧ j'.updated_at = now ∧
    (f.status = none → j'.status = j.status) ∧
    (f.created_at = none → j'.created_at = j.created_at) ∧
    (f.audio_url = none → j'.audio_url = j.audio_url) ∧
    (f.duration_seconds = none → j'.duration_seconds = j.duration_seconds) ∧
    (f.model = none → j'.model = j.model) ∧
    (f.voice_id = none → j'.voice_id = j.voice_id) ∧
    (f.source = none → j'.source = j.source) ∧
    (f.error = none → j'.error = j.error) := by
  have h1' : dictGet s.jobs id = some j := hget
  unfold JobStore.update at hupd
  rw [h1'] at hupd
  simp only [Option.some.injEq, Prod.mk.injEq] at hupd
  obtain ⟨hs', hj'⟩ := hupd
  have hid : j.job_id = id := dictGet_some hget
  have hid2 : (applyFields j f now).job_id = id := by simpa [applyFields] using hid
  subst hj'
  refine ⟨?_, rfl, rfl, ?_, ?_, ?_, ?_, ?_, ?_, ?_, ?_⟩
  · rw [← hs', JobStore.get, save__jobs, dictGet_dictSet_self hid2]
  all_goals intro h; simp [applyFields, h]

theorem C10_update_frame_witness :
    witC10store.get "w"
      = some { job_id := "w", status := "queued", created_at := 5, updated_at := 5 } ∧
    witC10store.update "w" { status := some "running" } 6
      = some ({ jobs := [{ job_id := "w", status := "running", created_at := 5, updated_at := 6 }],
                saved := [{ job_id := "w", status := "running", created_at := 5, updated_at := 6 }],
                has_path := true, max_items := 200 },
              { job_id := "w", status := "running", created_at := 5, updated_at := 6 }) ∧
    (({ jobs := [{ job_id := "w", status := "running", created_at := 5, updated_at := 6 }],
        saved := [{ job_id := "w", status := "running", created_at := 5, updated_at := 6 }],
        has_path := true, max_items := 200 } : JobStore).get "w"
        = some { job_id := "w", status := "running", created_at := 5, updated_at := 6 } ∧
      ({ job_id := "w", status := "running", created_at := 5, updated_at := 6 } : JobStatus).job_id
        = ({ job_id := "w", status := "queued", created_at := 5, updated_at := 5 } : JobStatus).job_id ∧
      ({ job_id := "w", status := "running", created_at := 5, updated_at := 6 } : JobStatus).updated_at = 6 ∧
      (({ status := some "running" } : JobFields).status = none →
        ({ job_id := "w", status := "running", created_at := 5, updated_at := 6 } : JobStatus).status
          = ({ job_id := "w", status := "queued", created_at := 5, updated_at := 5 } : JobStatus).status) ∧
      (({ status := some "running" } : JobFields).created_at = none →
        ({ job_id := "w", status := "running", created_at := 5, updated_at := 6 } : JobStatus).created_at
          = ({ job_id := "w", status := "queued", created_at := 5, updated_at := 5 } : JobStatus).created_at) ∧
      (({ status := some "running" } : JobFields).audio_url = none →
        ({ job_id := "w", status := "running", created_at := 5, updated_at := 6 } : JobStatus).audio_url
          = ({ job_id := "w", status := "queued", created_at := 5, updated_at := 5 } : JobStatus).audio_url) ∧
      (({ status := some "running" } : JobFields).duration_seconds = none →
        ({ job_id := "w", status := "running", created_at := 5, updated_at := 6 } : JobStatus).duration_seconds
          = ({ job_id := "w", status := "queued", created_at := 5, updated_at := 5 } : JobStatus).duration_seconds) ∧
      (({ status := some "running" } : JobFields).model = none →
        ({ job_id := "w", status := "running", created_at := 5, updated_at := 6 } : JobStatus).model
          = ({ job_id := "w", status := "queued", created_at := 5, updated_at := 5 } : JobStatus).model) ∧
      (({ status := some "running" } : JobFields).voice_id = none →
        ({ job_id := "w", status := "running", created_at := 5, updated_at := 6 } : JobStatus).voice_id
          = ({ job_id := "w", status := "queued", created_at := 5, updated_at := 5 } : JobStatus).voice_id) ∧
      (({ status := some "running" } : JobFields).source = none →
        ({ job_id := "w", status := "running", created_at := 5, updated_at := 6 } : JobStatus).source
          = ({ job_id := "w", status := "queued", created_at := 5, updated_at := 5 } : JobStatus).source) ∧
      (({ status := some "running" } : JobFields).error = none →
        ({ job_id := "w", status := "running", created_at := 5, updated_at := 6 } : JobStatus).error
          = ({ job_id := "w", status := "queued", created_at := 5, updated_at := 5 } : JobStatus).error)) :=
  ⟨by decide, by decide,
    C10_update_frame witC10store "w" { status := some "running" } 6 _ _ _
      (by decide) (by decide)⟩

/-! ### Lemmas about the cleanup sweep -/

theorem filterHistory_eq (files : List FileInfo) (now cutoff : Int) (l : List HistoryEntry) :
    filterHistory files now cutoff l
      = (l.filter (keepEntry files now cutoff),
         l.length - (l.filter (keepEntry files now cutoff)).length) := by
  induction l with
  | nil => rfl
  | cons e rest ih =>
    have hle := List.length_filter_le (keepEntry files now cutoff) rest
    cases hm : entryFileMissing files e with
    | true =>
      have hk : keepEntry files now cutoff e = false := by simp [keepEntry, hm]
      simp only [filterHistory, hm, if_true, ih, List.filter_cons, hk, Bool.false_eq_true,
        if_false, List.length_cons, Prod.mk.injEq, eq_self_iff_true, true_and]
      omega
    | false =>
      cases hx : entryExpired now cutoff e with
      | true =>
        have hk : keepEntry files now cutoff e = false := by simp [keepEntry, hx]
        simp only [filterHistory, hm, hx, Bool.false_eq_true, if_false, if_true, ih,
          List.filter_cons, hk, List.length_cons, Prod.mk.injEq, eq_self_iff_true, true_and]
        omega
      | false =>
        have hk : keepEntry files now cutoff e = true := by simp [keepEntry, hm, hx]
        simp only [filterHistory, hm, hx, Bool.false_eq_true, if_false, ih,
          List.filter_cons, hk, if_true, List.length_cons, Prod.mk.injEq, eq_self_iff_true,
          true_and]
        omega

theorem cleanup_outputs_eq (files : List FileInfo) (history : List HistoryEntry)
    (now : Int) (h m : Nat) :
    cleanup_outputs files history now h m =
      { files := (sweepFiles (now - 3600 * (h : Int)) files).1
        history := (history.filter (keepEntry (sweepFiles (now - 3600 * (h : Int)) files).1
            now (now - 3600 * (h : Int)))).take m
        removed_files := (sweepFiles (now - 3600 * (h : Int)) files).2
        removed_history :=
          (history.length
            - (history.filter (keepEntry (sweepFiles (now - 3600 * (h : Int)) files).1
                now (now - 3600 * (h : Int)))).length)
          + ((history.filter (keepEntry (sweepFiles (now - 3600 * (h : Int)) files).1
                now (now - 3600 * (h : Int)))).length - m)
        remaining_history :=
          ((history.filter (keepEntry (sweepFiles (now - 3600 * (h : Int)) files).1
            now (now - 3600 * (h : Int)))).take m).length } := by
  simp only [cleanup_outputs]
  rw [filterHistory_eq]
  by_cases hlen : (history.filter (keepEntry (sweepFiles (now - 3600 * (h : Int)) files).1
      now (now - 3600 * (h : Int)))).length > m
  · simp only [hlen, if_true, CleanupResult.mk.injEq, eq_self_iff_true, true_and, and_true]
  · simp only [hlen, if_false, CleanupResult.mk.injEq, eq_self_iff_true, true_and, and_true]
    have hle : (history.filter (keepEntry (sweepFiles (now - 3600 * (h : Int)) files).1
        now (now - 3600 * (h : Int)))).length ≤ m := by omega
    rw [List.take_of_length_le hle]
    refine ⟨rfl, ?_, rfl⟩
    omega

theorem sweepFiles_post (cutoff : Int) (files : List FileInfo) :
    ∀ f ∈ (sweepFiles cutoff files).1,
      f.in_glob = true → f.mtime < cutoff → f.unlink_fails = true := by
  induction files with
  | nil => intro f hf; simp [sweepFiles] at hf
  | cons g rest ih =>
    intro f hf hg hm
    simp only [sweepFiles] at hf
    by_cases hcond : (g.in_glob && decide (g.mtime < cutoff)) = true
    · rw [if_pos hcond] at hf
      cases huf : g.unlink_fails with
      | true =>
        rw [if_pos huf] at hf
        rcases List.mem_cons.mp hf with rfl | hf2
        · exact huf
        · exact ih f hf2 hg hm
      | false =>
        rw [if_neg (by simp [huf])] at hf
        exact ih f hf hg hm
    · rw [if_neg hcond] at hf
      rcases List.mem_cons.mp hf with rfl | hf2
      · exact absurd (by simp [hg, hm]) hcond
      · exact ih f hf2 hg hm

theorem sweepFiles_stable (cutoff : Int) (files : List FileInfo)
    (hs : ∀ f ∈ files, f.in_glob = true → f.mtime < cutoff → f.unlink_fails = true) :
    sweepFiles cutoff files = (files, 0) := by
  induction files with
  | nil => rfl
  | cons g rest ih =>
    have hrest : sweepFiles cutoff rest = (rest, 0) :=
      ih (fun f hf => hs f (List.mem_cons_of_mem _ hf))
    simp only [sweepFiles, hrest]
    by_cases hcond : (g.in_glob && decide (g.mtime < cutoff)) = true
    · obtain ⟨hg, hm⟩ := Bool.and_eq_true_iff.mp hcond
      have huf : g.unlink_fails = true :=
        hs g (List.mem_cons_self _ _) hg (of_decide_eq_true hm)
      rw [if_pos hcond, if_pos huf]
    · rw [if_neg hcond]

/-! ### Claims about the cleanup sweep -/

/-- C6 (confirmed): one cleanup run keeps exactly the input entries whose
referenced audio file (when set) still exists after the file sweep and whose
parsed `created_at` (defaulting to `now` when missing or unparseable) is not
before the cutoff, truncated to the first (most recent) `max_history`
entries; `removed_history` counts the dropped entries plus the truncation
overflow.  In particular a 3-entry history with `max_history = 2` keeps
exactly the first 2 entries and reports `removed_history = 1`. -/
theorem C6_cleanup_filter_truncate (files : List FileInfo) (history : List HistoryEntry)
    (now : Int) (h m : Nat) :
    ((cleanup_outputs files history now h m).history
        = (history.filter (keepEntry (sweepFiles (now - 3600 * (h : Int)) files).1 now
            (now - 3600 * (h : Int)))).take m ∧
      (cleanup_outputs files history now h m).removed_history
        = (history.length
            - (history.filter (keepEntry (sweepFiles (now - 3600 * (h : Int)) files).1 now
                (now - 3600 * (h : Int)))).length)
          + ((history.filter (keepEntry (sweepFiles (now - 3600 * (h : Int)) files).1 now
                (now - 3600 * (h : Int)))).length - m)) ∧
    ((cleanup_outputs exFiles [exE1, exE2, exE3] 100 48 2).history = [exE1, exE2] ∧
      (cleanup_outputs exFiles [exE1, exE2, exE3] 100 48 2).removed_history = 1) := by
  refine ⟨⟨?_, ?_⟩, by decide⟩
  · rw [cleanup_outputs_eq]
  · rw [cleanup_outputs_eq]

/-- C8 (confirmed): the cleanup sweep is idempotent — a second run in
immediate succession (same clock value, same thresholds) removes no file and
no history entry and leaves both the persisted history and the disk state
unchanged. -/
theorem C8_cleanup_idempotent (files : List FileInfo) (history : List HistoryEntry)
    (now : Int) (h m : Nat) :
    (cleanup_outputs (cleanup_outputs files history now h m).files
        (cleanup_outputs files history now h m).history now h m).removed_files = 0 ∧
    (cleanup_outputs (cleanup_outputs files history now h m).files
        (cleanup_outputs files history now h m).history now h m).removed_history = 0 ∧
    (cleanup_outputs (cleanup_outputs files history now h m).files
        (cleanup_outputs files history now h m).history now h m).history
      = (cleanup_outputs files history now h m).history ∧
    (cleanup_outputs (cleanup_outputs files history now h m).files
        (cleanup_outputs files history now h m).history now h m).files
      = (cleanup_outputs files history now h m).files := by
  rw [cleanup_outputs_eq, cleanup_outputs_eq]
  simp only
  have hsw : sweepFiles (now - 3600 * (h : Int)) (sweepFiles (now - 3600 * (h : Int)) files).1
      = ((sweepFiles (now - 3600 * (h : Int)) files).1, 0) :=
    sweepFiles_stable _ _ (sweepFiles_post _ _)
  rw [hsw]
  simp only
  have hkeep : ∀ e ∈ ((history.filter (keepEntry (sweepFiles (now - 3600 * (h : Int)) files).1
      now (now - 3600 * (h : Int)))).take m),
      keepEntry (sweepFiles (now - 3600 * (h : Int)) files).1 now (now - 3600 * (h : Int)) e
        = true :=
    fun e he => (List.mem_filter.mp (List.mem_of_mem_take he)).2
  rw [List.filter_eq_self.mpr hkeep]
  have hlen : ((history.filter (keepEntry (sweepFiles (now - 3600 * (h : Int)) files).1
      now (now - 3600 * (h : Int)))).take m).length ≤ m := List.length_take_le _ _
  rw [List.take_of_length_le hlen]
  refine ⟨?_, ?_, ?_, ?_⟩ <;> first | trivial | omega

/-! ### Lemmas about provider resolution -/

theorem any_status_eq (pkgs : Pkgs) (mid : String) (hsup : supports_local_model pkgs mid = true)
    (l : List ModelStatus) :
    (l.any fun st => st.exists_ && st.repo_id == mid && supports_local_model pkgs st.repo_id)
      = (l.any fun st => st.exists_ && st.repo_id == mid) := by
  induction l with
  | nil => rfl
  | cons st rest ih =>
    simp only [List.any_cons, ih]
    cases hr : (st.repo_id == mid) with
    | true =>
      have hreq : st.repo_id = mid := by simpa using hr
      rw [hreq, hsup]
      simp
    | false => simp [hr]

/-- C2 (counterexample): the claim fails as stated.  In auto mode with an HF
token configured and the model manager attached (as `main.py` always attaches
it), resolving the provider for a runtime-supported model with no downloaded
artifact does not fall through to `inference`: `_has_local_models` reaches
`self.model_manager.resolve_model_path(model_id)` — a method the in-repo
`ModelManager` does not define — and raises `AttributeError`. -/
theorem C2_cex_resolution_raises :
    (cexC2svc.provider == "local" || cexC2svc.provider == "inference"
      || cexC2svc.provider == "stub") = false ∧
    optTruthy cexC2svc.hf_token = true ∧
    supports_local_model cexC2svc.pkgs "suno/bark-small" = true ∧
    resolve_provider cexC2svc (some "suno/bark-small") = .error resolve_model_path_error := by
  decide

/-- C2 (amended): an explicit configured provider among local/inference/stub
is returned unconditionally; otherwise (auto) the result is `local` when a
local artifact for the model is present (a `status()` row with `exists` when
the manager is attached, else the models-directory check) and the backend
family is runtime-supported; otherwise, when the family is supported and a
manager is attached, resolution raises `AttributeError` (`ModelManager`
defines no `resolve_model_path`) instead of falling through; in the
remaining cases it is `inference` when an HF token is configured, else
`stub`.  (`spec_resolve_provider` is that rule written out; the hypothesis
is that the model id is a non-empty string, matching Python truthiness.) -/
theorem C2_amended_provider_resolution (svc : TTSService) (mid : String)
    (hmid : mid.data.isEmpty = false) :
    resolve_provider svc (some mid) = spec_resolve_provider svc mid := by
  have htr : optTruthy (some mid) = true := by simp [optTruthy, hmid]
  unfold resolve_provider spec_resolve_provider
  by_cases hexp :
      (svc.provider == "local" || svc.provider == "inference" || svc.provider == "stub") = true
  · rw [if_pos hexp, if_pos hexp]
  · rw [if_neg hexp, if_neg hexp]
    unfold has_local_models spec_local_artifact_present
    cases hsup : supports_local_model svc.pkgs mid with
    | false =>
      rw [if_pos (by simp [htr, hsup])]
      simp [hsup]
    | true =>
      rw [if_neg (by simp [htr, hsup])]
      cases hmm : svc.model_manager with
      | some mm =>
        simp only [htr, if_true, Option.getD_some, Option.isSome_some,
          any_status_eq svc.pkgs mid hsup]
        cases hany : mm.status.any (fun st => st.exists_ && st.repo_id == mid) with
        | true => simp [hany, hsup]
        | false => simp [hany, hsup]
      | none =>
        cases hd : svc.models_dir with
        | some d => simp [htr, hsup]
        | none => simp [hsup]

theorem C2_amended_provider_resolution_witness :
    ("suno/bark-small").data.isEmpty = false ∧
    resolve_provider { hf_token := some "tok", pkgs := allPkgs } (some "suno/bark-small")
      = spec_resolve_provider { hf_token := some "tok", pkgs := allPkgs } "suno/bark-small" :=
  ⟨by decide,
    C2_amended_provider_resolution { hf_token := some "tok", pkgs := allPkgs }
      "suno/bark-small" (by decide)⟩

/-! ### Claims about synthesize -/

/-- C1 (counterexample): the claim fails as stated.  With fallback enabled
(`fallback_stub = true`) and the resolved provider `local`, a missing local
model artifact raises `RuntimeError` before the `try` block of `synthesize`,
so the error propagates to the caller instead of producing a stub result. -/
theorem C1_cex_precheck_propagates :
    cexC1svc.fallback_stub = true ∧
    synthErrorOf (synthesize cexC1svc
        { text := "hi", voice_id := "parler_en_neutral", provider := some "local",
          job_id := some "j1" } "u1" 0 failingBackend)
      = some (.runtimeError "Modele local manquant. Telechargez-le via l onglet Modeles.") := by
  decide

/-- C1 (amended): for a request resolved to a non-stub provider that passes
the pre-dispatch checks (local availability and voice-reference validation),
if the dispatched backend call raises, then with fallback enabled
`synthesize` returns a stub-generated `AudioResult` tagged `source = "stub"`,
and with fallback disabled the error propagates; the pre-dispatch
availability errors (missing optional runtime dependency, missing local
artifact), however, are raised before the `try` block and propagate
regardless of the fallback flag (see the counterexample). -/
theorem C1_amended_fallback_policy (svc : TTSService) (req : SynthRequest) (uuid4 : String)
    (now : Int) (backendRun : String → Except String ℚ) (voice : VoicePreset)
    (rp msg : String)
    (hv : voice_by_id svc.skip_kokoro req.voice_id = some voice)
    (hstub : svc.use_stub = false)
    (hrp : resolvedProviderOf svc req voice = .ok rp)
    (hnot : (rp == "stub") = false)
    (hpre : local_precheck svc voice rp = none)
    (hvr : voice_ref_check voice rp req.voice_ref = none)
    (herr : dispatch svc voice rp (jobIdOf req uuid4) req.text
        req.voice_id req.speed now backendRun = .error msg) :
    synthesize svc req uuid4 now backendRun =
      (if svc.fallback_stub then
        .ok (mkStubResult svc voice.model req.voice_id (jobIdOf req uuid4) req.text req.speed now)
      else .error (.backendError msg)) := by
  simp only [synthesize, hv, hrp, hstub, hnot, Bool.false_or, Bool.false_eq_true, if_false,
    hpre, hvr, herr, bne, Bool.not_false, Bool.and_true]
  cases hf : svc.fallback_stub with
  | true => simp
  | false => simp

theorem C1_amended_fallback_policy_witness :
    voice_by_id witC1svc.skip_kokoro witC1req.voice_id = some bark_en_0 ∧
    witC1svc.use_stub = false ∧
    resolvedProviderOf witC1svc witC1req bark_en_0 = .ok "inference" ∧
    ("inference" == "stub") = false ∧
    local_precheck witC1svc bark_en_0 "inference" = none ∧
    voice_ref_check bark_en_0 "inference" witC1req.voice_ref = none ∧
    dispatch witC1svc bark_en_0 "inference"
      (jobIdOf witC1req "u") witC1req.text witC1req.voice_id witC1req.speed 0 failingBackend
      = .error "backend down" ∧
    synthesize witC1svc witC1req "u" 0 failingBackend =
      (if witC1svc.fallback_stub then
        .ok (mkStubResult witC1svc bark_en_0.model witC1req.voice_id (jobIdOf witC1req "u")
          witC1req.text witC1req.speed 0)
      else .error (.backendError "backend down")) := by
  refine ⟨by decide, rfl, rfl, by decide, by decide, by decide, rfl, ?_⟩
  exact C1_amended_fallback_policy witC1svc witC1req "u" 0 failingBackend bark_en_0
    "inference" "backend down" (by decide) rfl rfl (by decide) (by decide) (by decide) rfl

theorem resolve_voice_ref_none_iff (v : Option String) :
    (resolve_voice_ref v).isNone = blankOpt v := by
  cases v with
  | none => rfl
  | some s =>
    unfold resolve_voice_ref blankOpt
    cases h1 : s.data.isEmpty with
    | true => simp [h1]
    | false =>
      cases h2 : (strStrip s).data.isEmpty with
      | true => simp [h1, h2]
      | false => simp [h1, h2]

/-- C7 (counterexample): the claim fails as stated.  For the cloning voice
`xtts_v2_multi` (whose backend family requires a voice reference) with no
voice reference supplied but an explicit stub provider, `synthesize` takes
the early stub path before the voice-reference validation and succeeds with
`source = "stub"` instead of failing with a validation error. -/
theorem C7_cex_stub_bypasses_voice_ref :
    supports_voice_ref xtts_v2_multi.model = true ∧
    synthSource (synthesize {}
        { text := "hi", voice_id := "xtts_v2_multi", provider := some "stub",
          job_id := some "j" } "u" 0 failingBackend) = some "stub" := by
  decide

/-- C7 (amended): for a request whose resolved provider is not stub (and the
stub flag is off) that passes the local-availability pre-checks, if the
voice's backend family requires a voice reference and none (or a blank one)
is supplied, `synthesize` fails with the voice-reference `ValueError` before
any backend invocation — the conclusion holds for every dispatch oracle and
every fallback setting, so the validation error is never retried via
fallback; requests resolved to the stub provider, however, bypass this
validation entirely (see the counterexample). -/
theorem C7_amended_voice_ref_validation (svc : TTSService) (req : SynthRequest)
    (uuid4 : String) (now : Int) (backendRun : String → Except String ℚ)
    (voice : VoicePreset) (rp : String)
    (hv : voice_by_id svc.skip_kokoro req.voice_id = some voice)
    (hstub : svc.use_stub = false)
    (hrp : resolvedProviderOf svc req voice = .ok rp)
    (hnot : (rp == "stub") = false)
    (hpre : local_precheck svc voice rp = none)
    (hsupp : supports_voice_ref voice.model = true)
    (hmissing : resolve_voice_ref req.voice_ref = none) :
    synthesize svc req uuid4 now backendRun
      = .error (.valueError "Ce modele requiert une reference de voix (voice_ref).") := by
  have hblank : blankOpt req.voice_ref = true := by
    rw [← resolve_voice_ref_none_iff, hmissing]; rfl
  have hvr : voice_ref_check voice rp req.voice_ref
      = some (.valueError "Ce modele requiert une reference de voix (voice_ref).") := by
    unfold voice_ref_check
    rw [if_pos hsupp]
    cases hinf : (rp == "inference") with
    | true => simp [hinf, hmissing]
    | false => simp [hinf, hblank]
  simp only [synthesize, hv, hrp, hstub, hnot, Bool.false_or, Bool.false_eq_true, if_false,
    hpre, hvr]

theorem C7_amended_voice_ref_validation_witness :
    voice_by_id true witC7req.voice_id = some xtts_v2_multi ∧
    (false : Bool) = false ∧
    resolvedProviderOf {} witC7req xtts_v2_multi = .ok "inference" ∧
    ("inference" == "stub") = false ∧
    local_precheck {} xtts_v2_multi "inference" = none ∧
    supports_voice_ref xtts_v2_multi.model = true ∧
    resolve_voice_ref witC7req.voice_ref = none ∧
    synthesize {} witC7req "u" 0 failingBackend
      = .error (.valueError "Ce modele requiert une reference de voix (voice_ref).") := by
  refine ⟨by decide, rfl, rfl, by decide, by decide, by decide, rfl, ?_⟩
  exact C7_amended_voice_ref_validation {} witC7req "u" 0 failingBackend xtts_v2_multi
    "inference" (by decide) rfl rfl (by decide) (by decide) (by decide) rfl

/-- C9 (confirmed): with the stub provider requested, `synthesize` succeeds
for every environment, oracle, text and speed in [0.5, 2], returning the
deterministic stub result with `source = "stub"` whose duration is
`clamp(len(text) / 20, 1.0, 5.0) / speed` (float arithmetic modelled over
ℚ). -/
theorem C9_stub_duration (svc : TTSService) (req : SynthRequest) (uuid4 : String)
    (now : Int) (backendRun : String → Except String ℚ) (voice : VoicePreset)
    (hv : voice_by_id svc.skip_kokoro req.voice_id = some voice)
    (hprov : req.provider = some "stub")
    (_hs1 : 1 / 2 ≤ req.speed) (_hs2 : req.speed ≤ 2) :
    synthesize svc req uuid4 now backendRun
      = .ok (mkStubResult svc voice.model req.voice_id (jobIdOf req uuid4) req.text
          req.speed now) ∧
    (mkStubResult svc voice.model req.voice_id (jobIdOf req uuid4) req.text req.speed
        now).duration_seconds
      = max 1 (min 5 ((req.text.data.length : ℚ) / 20)) / req.speed ∧
    (mkStubResult svc voice.model req.voice_id (jobIdOf req uuid4) req.text req.speed
        now).source = "stub" := by
  have hrp : resolvedProviderOf svc req voice = .ok "stub" := by
    unfold resolvedProviderOf
    rw [hprov]
    rfl
  refine ⟨?_, rfl, rfl⟩
  simp only [synthesize, hv, hrp]
  simp

theorem C9_stub_duration_witness :
    voice_by_id true witC9req.voice_id = some parler_en_neutral ∧
    witC9req.provider = some "stub" ∧
    ((1 : ℚ) / 2 ≤ witC9req.speed ∧ witC9req.speed ≤ 2) ∧
    (synthesize {} witC9req "u" 0 failingBackend
      = .ok (mkStubResult {} parler_en_neutral.model witC9req.voice_id (jobIdOf witC9req "u")
          witC9req.text witC9req.speed 0) ∧
      (mkStubResult {} parler_en_neutral.model witC9req.voice_id (jobIdOf witC9req "u")
          witC9req.text witC9req.speed 0).duration_seconds
        = max 1 (min 5 ((witC9req.text.data.length : ℚ) / 20)) / witC9req.speed ∧
      (mkStubResult {} parler_en_neutral.model witC9req.voice_id (jobIdOf witC9req "u")
          witC9req.text witC9req.speed 0).source = "stub") := by
  refine ⟨by decide, rfl, ⟨le_of_lt one_half_lt_one, one_le_two⟩, ?_⟩
  exact C9_stub_duration {} witC9req "u" 0 failingBackend parler_en_neutral
    (by decide) rfl (le_of_lt one_half_lt_one) one_le_two

/-! ### Lemmas for the endpoint flow -/

theorem get_create_self (s : JobStore) (id st : String) (now : Int) :
    (s.create id st now).1.get id
      = some { job_id := id, status := st, created_at := now, updated_at := now } := by
  have hid : ({ job_id := id, status := st, created_at := now, updated_at := now } : JobStatus).job_id = id := rfl
  unfold JobStore.create
  rw [save__get]
  exact dictGet_dictSet_self hid

theorem update_of_get {s : JobStore} {id : String} {j : JobStatus} (f : JobFields) (now : Int)
    (h : s.get id = some j) :
    s.update id f now
      = some (JobStore.save_ { s with jobs := dictSet s.jobs id (applyFields j f now) },
              applyFields j f now) := by
  have h' : dictGet s.jobs id = some j := h
  unfold JobStore.update
  rw [h']

theorem get_update_self {s : JobStore} {id : String} {j : JobStatus} (f : JobFields) (now : Int)
    (h : s.get id = some j) :
    (JobStore.save_ { s with jobs := dictSet s.jobs id (applyFields j f now) }).get id
      = some (applyFields j f now) := by
  rw [save__get]
  exact dictGet_dictSet_self (by simpa [applyFields] using dictGet_some h)

/-! ### Claim about unknown voice ids -/

/-- C4 (counterexample): the claim fails as stated.  Requesting an unknown
voice id through the `/synthesize` endpoint creates a job record before
synthesis runs; the record remains in the store marked `failed` with the
`Unknown voice_id` message, so a job record IS created for the request (no
history entry is created, which is the part that holds). -/
theorem C4_cex_job_record_created :
    cexC4out.2.1 = [] ∧
    (cexC4out.1.get "job-1").map JobStatus.status = some "failed" ∧
    (cexC4out.1.get "job-1").map JobStatus.error = some (some "Unknown voice_id: nope") := by
  decide

/-- C4 (amended): for a synthesis request whose voice id is not registered,
`TTSService.synthesize` raises the `Unknown voice_id` `ValueError`, and the
endpoint flow creates no history entry; the endpoint does, however, create a
job record first and marks it `failed` with that error message, and that
failed record is what `get` returns afterwards. -/
theorem C4_amended_unknown_voice (store : JobStore) (hist : List HistEntry)
    (svc : TTSService) (text voice_id : String) (speed : ℚ) (style : Option String)
    (job_uuid uuid4 : String) (backendRun : String → Except String ℚ) (t0 t1 tS t2 : Int)
    (hunknown : voice_by_id svc.skip_kokoro voice_id = none)
    (htext : (strStrip text).data.isEmpty = false) :
    synthesize svc
        { text := strStrip text, voice_id := voice_id, speed := speed, style := style,
          job_id := some job_uuid }
        uuid4 tS backendRun
      = .error (.valueError ("Unknown voice_id: " ++ voice_id)) ∧
    (api_synthesize store hist svc text voice_id speed style job_uuid uuid4 backendRun
        t0 t1 tS t2).2.1 = hist ∧
    ∃ job, (api_synthesize store hist svc text voice_id speed style job_uuid uuid4 backendRun
        t0 t1 tS t2).2.2 = some job ∧
      job.status = "failed" ∧
      job.error = some ("Unknown voice_id: " ++ voice_id) ∧
      (api_synthesize store hist svc text voice_id speed style job_uuid uuid4 backendRun
        t0 t1 tS t2).1.get job_uuid = some job := by
  have hsynth : synthesize svc
      { text := strStrip text, voice_id := voice_id, speed := speed, style := style,
        job_id := some job_uuid }
      uuid4 tS backendRun
      = .error (.valueError ("Unknown voice_id: " ++ voice_id)) := by
    simp only [synthesize, hunknown]
  refine ⟨hsynth, ?_⟩
  have h0 := get_create_self store job_uuid "queued" t0
  have h1 := update_of_get { status := some "running" } t1 h0
  have h1get := get_update_self { status := some "running" } t1 h0
  have h2 := update_of_get
    { status := some "failed", error := some (some ("Unknown voice_id: " ++ voice_id)) } t2
    h1get
  have h2get := get_update_self
    { status := some "failed", error := some (some ("Unknown voice_id: " ++ voice_id)) } t2
    h1get
  simp only [api_synthesize, htext, Bool.false_eq_true, if_false, run_job, h1, hsynth,
    SynthError.message, h2]
  refine ⟨trivial, ⟨_, rfl, rfl, rfl, ?_⟩⟩
  exact h2get

theorem C4_amended_unknown_voice_witness :
    voice_by_id ({} : TTSService).skip_kokoro "nope" = none ∧
    (strStrip "hello").data.isEmpty = false ∧
    (synthesize {}
        { text := strStrip "hello", voice_id := "nope", speed := 1, style := none,
          job_id := some "job-1" }
        "u-1" 2 failingBackend
      = .error (.valueError ("Unknown voice_id: " ++ "nope")) ∧
    (api_synthesize {} [] {} "hello" "nope" 1 none "job-1" "u-1" failingBackend
        0 1 2 3).2.1 = [] ∧
    ∃ job, (api_synthesize {} [] {} "hello" "nope" 1 none "job-1" "u-1" failingBackend
        0 1 2 3).2.2 = some job ∧
      job.status = "failed" ∧
      job.error = some ("Unknown voice_id: " ++ "nope") ∧
      (api_synthesize {} [] {} "hello" "nope" 1 none "job-1" "u-1" failingBackend
        0 1 2 3).1.get "job-1" = some job) := by
  refine ⟨by decide, by decide, ?_⟩
  exact C4_amended_unknown_voice {} [] {} "hello" "nope" 1 none "job-1" "u-1" failingBackend
    0 1 2 3 (by decide) (by decide)

end OratioViva
